import Mathlib

/-! Verification development for the rdap-cache-service core:
a shallow embedding of `src/lib/rdapClient.ts` (bootstrap registry cache,
service locator, resilient request executor) and
`src/app/api/rdap/route.ts` (query orchestrator), with theorems settling
the specification claims about them.

Conventions of the embedding:
* JavaScript strings are Lean `String`; the handful of string operations the
  code uses (`trim`, `toLowerCase`, `split('.')`, `startsWith`, character
  tests) are re-implemented structurally over `String.toList` so that every
  definition evaluates inside the kernel.  Domain queries are ASCII, so the
  ASCII lowering models `toLowerCase` faithfully on the relevant inputs.
* JSON documents flowing through the client are modelled by `RdapDoc`, a
  record of the optional fields the code actually inspects; "the field is
  absent or not of the expected shape" is `none`.
* External collaborators (the network, `ipaddr.js` address parsing, WHATWG
  URL resolution, the Prisma store's raw-SQL containment query) enter as
  explicit environment parameters; everything the repository itself computes
  is translated from the source.
-/

/-- ASCII lowering of one character, as `String.prototype.toLowerCase`
acts on the ASCII range (domain queries are ASCII). -/
def charLower (c : Char) : Char :=
  if 'A' ≤ c ∧ c ≤ 'Z' then Char.ofNat (c.toNat + 32) else c

/-- Model of `s.toLowerCase()` (ASCII). -/
def strLower (s : String) : String :=
  String.mk (s.toList.map charLower)

/-- Split a character list at every occurrence of `c`
(JavaScript `String.prototype.split` with a one-character separator). -/
def splitOnChar (c : Char) : List Char → List (List Char)
  | [] => [[]]
  | x :: xs =>
    match splitOnChar c xs with
    | [] => [[]]
    | h :: t => if x = c then [] :: h :: t else (x :: h) :: t

/-- Model of `query.split('.')` — the dot-separated labels of a domain name. -/
def splitDots (s : String) : List String :=
  (splitOnChar '.' s.toList).map String.mk

/-- Model of `labels.join('.')` — rebuild a candidate suffix from labels. -/
def joinDots : List String → String
  | [] => ""
  | [x] => x
  | x :: xs => x ++ "." ++ joinDots xs

/-- Model of `s.trim()` — strip leading and trailing whitespace. -/
def strTrim (s : String) : String :=
  String.mk ((((s.toList.dropWhile Char.isWhitespace).reverse.dropWhile
    Char.isWhitespace).reverse))

/-- Model of `s.startsWith(p)` over the structural string model. -/
def startsWithStr (p s : String) : Bool :=
  p.toList.isPrefixOf s.toList

/-- JavaScript `parseInt(s, 10)`: skip leading whitespace, optional sign,
then the maximal run of decimal digits; `none` models `NaN`. -/
def digitsVal : List Char → Nat → Nat
  | [], acc => acc
  | c :: cs, acc => digitsVal cs (acc * 10 + (c.toNat - '0'.toNat))

def parseIntJs (s : String) : Option Int :=
  let l := s.toList.dropWhile Char.isWhitespace
  let (sign, rest) :=
    match l with
    | '-' :: r => ((-1 : Int), r)
    | '+' :: r => ((1 : Int), r)
    | r => ((1 : Int), r)
  let digits := rest.takeWhile Char.isDigit
  if digits.isEmpty then none
  else some (sign * (digitsVal digits 0 : Int))

/-- One element of a `cidr0_cidrs` extension array (`src/app/api/rdap/route.ts`).
The source field is named `v4prefix`; it is called `v4pfx` here. -/
structure Cidr0Entry where
  v4pfx : Option String
  v4len : Option Nat
deriving DecidableEq, Repr

/-- Projection of the JSON documents the code inspects
(`RdapQueryResult` in `src/lib/types.ts`): each field is `some _` exactly
when the JSON object carries a field of the expected shape. -/
structure RdapDoc where
  objectClassName : Option String
  errorCode : Option Int
  title : Option String
  description : Option (List String)
  ldhName : Option String
  cidr : Option String
  cidr0_cidrs : Option (List Cidr0Entry)
  startAddress : Option String
  endAddress : Option String
deriving DecidableEq, Repr

/-- A synthesized structured error (`{ errorCode, title, description }`). -/
def errDoc (code : Int) (t : String) (descr : List String) : RdapDoc :=
  { objectClassName := none, errorCode := some code, title := some t,
    description := some descr, ldhName := none, cidr := none,
    cidr0_cidrs := none, startAddress := none, endAddress := none }

/-- Guard `isRdapError` (`src/lib/types.ts`): `errorCode` is a number and
`description` is an array. -/
def isRdapError (d : RdapDoc) : Bool :=
  d.errorCode.isSome && d.description.isSome

/-- Guard `isRdapDomainResponse` (`src/lib/types.ts`). -/
def isRdapDomainResponse (d : RdapDoc) : Bool :=
  d.objectClassName == some "domain"

/-- Guard `isRdapIpNetworkResponse` (`src/lib/types.ts`). -/
def isRdapIpNetworkResponse (d : RdapDoc) : Bool :=
  d.objectClassName == some "ip network"

/-- The executor's duck-typing test
`responseData && typeof responseData === 'object' && responseData.errorCode`:
the body is an object whose `errorCode` field is truthy (present, nonzero). -/
def truthyErrorCode (d : RdapDoc) : Bool :=
  match d.errorCode with
  | some c => c != 0
  | none => false

/-- Mirrors `if (body has truthy errorCode) return body; return fallback` —
the pattern the executor applies at each terminal error status. -/
def serverBodyOr (data : Option RdapDoc) (fallback : RdapDoc) : RdapDoc :=
  match data with
  | some d => if truthyErrorCode d then d else fallback
  | none => fallback

example : strLower "FoO.CoM" = "foo.com" := by decide
example : splitDots "foo.example.com" = ["foo", "example", "com"] := by decide
example : joinDots ["example", "com"] = "example.com" := by decide
example : strTrim "  a b " = "a b" := by decide
example : parseIntJs "1" = some 1 := by decide
example : parseIntJs "12x" = some 12 := by decide
example : parseIntJs "x" = none := by decide

/-! Resilient request executor (`RDAPClient._makeRequest`) -/

/-- The outcome the transport delivers for one HTTP attempt, as axios
presents it to `_makeRequest`'s `try`/`catch`:
* `success` — status 2xx (`validateStatus`), `response.data` returned;
* `httpError` — a response with a non-2xx status, its `location` and
  `retry-after` headers, the axios error message, and its body when that
  body is a JSON object (`none` models an absent or non-object body);
* `networkError` — a request was sent but no response arrived;
* `setupError` — the axios error has neither response nor request;
* `nonAxiosError` — a non-axios exception during processing. -/
inductive HttpOutcome where
  | success (data : RdapDoc)
  | httpError (status : Int) (location : Option String)
      (retryAfter : Option String) (errMsg : String) (data : Option RdapDoc)
  | networkError (errMsg : String)
  | setupError (errMsg : String)
  | nonAxiosError (errMsg : String)

/-- Environment of one executor run: the client configuration
(`maxRedirects`, `maxRetries`), the upstream transport (indexed by how many
HTTP attempts were already made in this logical request chain), the WHATWG
URL resolution `new URL(location, url)` (`none` models the constructor
throwing), and `Math.random()` (the value drawn for the backoff computed
after attempt `n`). -/
structure ExecEnv where
  maxRedirects : Nat
  maxRetries : Nat
  upstream : Nat → HttpOutcome
  resolveUrl : String → String → Option String
  rand : Nat → ℚ

/-- Wait before retrying a 429: `retryAfterSec * 1000 + Math.random() * 500`
when the `retry-after` header parses, else `2 ** attempt * 1000 +
Math.random() * 1000` (`src/lib/rdapClient.ts`, lines 372-379). -/
def waitTime429 (attempt : Nat) (retryAfter : Option String) (rand : ℚ) : ℚ :=
  match retryAfter.bind parseIntJs with
  | none => 2 ^ attempt * 1000 + rand * 1000
  | some sec => (sec : ℚ) * 1000 + rand * 500

/-- Backoff before retrying a 5xx or network failure:
`2 ** attempt * 1000 + Math.random() * 1000`. -/
def backoffWait (attempt : Nat) (rand : ℚ) : ℚ :=
  2 ^ attempt * 1000 + rand * 1000

/-- The terminal error for an unhandled status (in the source this is the
fall-through after the 3xx/404/429/4xx/5xx tests). -/
def unhandledStatusDoc (status : Int) (url : String) : RdapDoc :=
  errDoc status ("Unhandled HTTP Status: " ++ toString status)
    ["Received an unexpected HTTP status code from " ++ url ++ "."]

/-- The synthesized terminal `RateLimited` error. -/
def rateLimitedDoc (url : String) : RdapDoc :=
  errDoc 429 "Too Many Requests" ["Rate limited on " ++ url ++ " after max retries."]

/-- The terminal `TooManyRedirects` error. -/
def tooManyRedirectsDoc (maxRedirects : Nat) (url : String) : RdapDoc :=
  errDoc 508 "Too Many Redirects"
    ["Exceeded maximum redirect limit (" ++ toString maxRedirects ++ ") fetching " ++ url]

/-- Embedding of `RDAPClient._makeRequest(url, redirectCount, attempt)`
(`src/lib/rdapClient.ts`, lines 286-514), with `n` the number of HTTP
attempts already performed in this chain.  Returns the `RdapQueryResult`
together with the list of URLs actually requested (in order) and the list
of backoff waits performed (in ms).  A 3xx response without a `location`
header falls through every later status test of the source straight to the
"Unhandled HTTP Status" branch, which the embedding takes directly. -/
def makeRequest (env : ExecEnv) (url : String) (redirectCount attempt n : Nat) :
    RdapDoc × List String × List ℚ :=
  if _hred : redirectCount > env.maxRedirects then
    (tooManyRedirectsDoc env.maxRedirects url, [], [])
  else
    match env.upstream n with
    | .success data => (data, [url], [])
    | .httpError status location retryAfter errMsg data =>
      if 300 ≤ status ∧ status < 400 then
        match location with
        | some loc =>
          match env.resolveUrl loc url with
          | some nextUrl =>
            let r := makeRequest env nextUrl (redirectCount + 1) 0 (n + 1)
            (r.1, url :: r.2.1, r.2.2)
          | none =>
            (errDoc 502 "Bad Gateway"
              ["Invalid redirect URL received from upstream RDAP server: " ++ loc],
             [url], [])
        | none => (unhandledStatusDoc status url, [url], [])
      else if status = 404 then
        (serverBodyOr data
          (errDoc 404 "Not Found"
            ["The RDAP server could not find the requested resource."]),
         [url], [])
      else if status = 429 then
        if hatt : attempt < env.maxRetries then
          let w := waitTime429 attempt retryAfter (env.rand n)
          let r := makeRequest env url redirectCount (attempt + 1) (n + 1)
          (r.1, url :: r.2.1, w :: r.2.2)
        else
          (serverBodyOr data (rateLimitedDoc url), [url], [])
      else if 400 ≤ status ∧ status < 500 then
        (serverBodyOr data
          (errDoc status ("Client Error: " ++ toString status)
            ["An error occurred while requesting " ++ url ++ ".", errMsg]),
         [url], [])
      else if 500 ≤ status ∧ status < 600 then
        if hatt : attempt < env.maxRetries then
          let w := backoffWait attempt (env.rand n)
          let r := makeRequest env url redirectCount (attempt + 1) (n + 1)
          (r.1, url :: r.2.1, w :: r.2.2)
        else
          (serverBodyOr data
            (errDoc status ("Server Error: " ++ toString status)
              ["Received server error from " ++ url ++ " after max retries."]),
           [url], [])
      else
        (unhandledStatusDoc status url, [url], [])
    | .networkError errMsg =>
      if hatt : attempt < env.maxRetries then
        let w := backoffWait attempt (env.rand n)
        let r := makeRequest env url redirectCount (attempt + 1) (n + 1)
        (r.1, url :: r.2.1, w :: r.2.2)
      else
        (errDoc 504 "Gateway Timeout"
          ["Network error connecting to " ++ url ++ " after max retries: " ++ errMsg],
         [url], [])
    | .setupError errMsg =>
      (errDoc 500 "Internal Client Error"
        ["An unexpected error occurred before the request could be sent to "
          ++ url ++ ": " ++ errMsg],
       [url], [])
    | .nonAxiosError errMsg =>
      (errDoc 500 "Internal Client Error"
        ["An unexpected non-HTTP error occurred while processing the request for "
          ++ url ++ ": " ++ errMsg],
       [url], [])
termination_by (env.maxRedirects + 1 - redirectCount, env.maxRetries - attempt)
decreasing_by
  all_goals first
    | (apply Prod.Lex.left; omega)
    | (apply Prod.Lex.right; omega)

/-! Bootstrap registry cache and service locator
(`RDAPClient.ensureBootstrapData`, `RDAPClient._findServerUrl`) -/

/-- One entry of a bootstrap `services` array: `[matchKeys, baseUrls]`
(`BootstrapServiceEntry` in `src/lib/types.ts`). -/
abbrev BootstrapServiceEntry := List String × List String

/-- A parsed bootstrap document (`BootstrapData` in `src/lib/types.ts`). -/
structure BootstrapData where
  version : String
  publication : String
  services : List BootstrapServiceEntry
deriving DecidableEq

/-- Type `BootstrapCache` (`src/lib/types.ts`): the process-lifetime snapshot.
`lastUpdated` is a Unix timestamp in milliseconds. -/
structure BootstrapCache where
  domain : Option BootstrapData
  ipv4 : Option BootstrapData
  ipv6 : Option BootstrapData
  lastUpdated : Option Nat
deriving DecidableEq

/-- The domain loop of `_findServerUrl` (`src/lib/rdapClient.ts`, lines
187-201): for `i` from 0, form `labels.slice(i).join('.')` and take the
first service whose `matchKeys` array contains that suffix. -/
def searchSuffixes (services : List BootstrapServiceEntry) :
    List String → Option (List String)
  | [] => none
  | label :: rest =>
    match services.find? (fun svc => svc.1.contains (joinDots (label :: rest))) with
    | some entry => some entry.2
    | none => searchSuffixes services rest

/-- Applies `query.toLowerCase().split('.')` then the suffix search: the base URLs
of the matched entry, if any. -/
def findDomainBaseUrls (services : List BootstrapServiceEntry) (query : String) :
    Option (List String) :=
  searchSuffixes services (splitDots (strLower query))

/-- URL selection at the end of `_findServerUrl` (lines 260-284): first
HTTPS URL, else first HTTP URL, else `null`. -/
def selectServerUrl (baseUrls : Option (List String)) : Option String :=
  match baseUrls with
  | none => none
  | some urls =>
    if urls.isEmpty then none
    else
      match urls.find? (fun u => startsWithStr "https://" (strLower u)) with
      | some u => some u
      | none => urls.find? (fun u => startsWithStr "http://" (strLower u))

/-- Environment of the bootstrap/query pipeline: outcomes of the three
`_fetchBootstrapFile` calls (an `Except.error` collapses HTTP failure, JSON
parse failure and a missing `services`/`version` field, all of which the
source turns into a thrown `Error`), the current time `Date.now()` in ms,
the executor environment for the RDAP request itself, `encodeURIComponent`,
and `new URL(ref, base).toString()` (`Except.error msg` models the
constructor throwing with that message). -/
structure ClientEnv where
  fetchDomain : Except String BootstrapData
  fetchIpv4 : Except String BootstrapData
  fetchIpv6 : Except String BootstrapData
  now : Nat
  exec : ExecEnv
  encode : String → String
  resolveRef : String → String → Except String String

/-- True when `env.fetch*` all parsed successfully. -/
def fetchesOk (env : ClientEnv) : Bool :=
  env.fetchDomain.isOk && env.fetchIpv4.isOk && env.fetchIpv6.isOk

/-- The body of the refresh (`ensureBootstrapData`, lines 129-155):
`Promise.all` of the three fetches; any failure rejects the whole refresh
(the embedding deterministically reports the first failing fetch in
argument order), and the rejection is rewrapped with the source's message. -/
def refreshResult (env : ClientEnv) : Except String BootstrapCache :=
  match env.fetchDomain, env.fetchIpv4, env.fetchIpv6 with
  | .ok d, .ok i4, .ok i6 => .ok ⟨some d, some i4, some i6, some env.now⟩
  | .error e, _, _ => .error ("Failed to initialize/refresh bootstrap data: " ++ e)
  | _, .error e, _ => .error ("Failed to initialize/refresh bootstrap data: " ++ e)
  | _, _, .error e => .error ("Failed to initialize/refresh bootstrap data: " ++ e)

/-- Run one refresh against the current snapshot: on success the snapshot
is replaced by the single assignment `this.bootstrapCache = {...}` (all
three sub-registries and the timestamp at once); on failure the snapshot
is left untouched and the error is the value every waiter receives. -/
def doRefresh (env : ClientEnv) (st : BootstrapCache) :
    Except String BootstrapCache × BootstrapCache :=
  match refreshResult env with
  | .ok c => (.ok c, c)
  | .error e => (.error e, st)

/-- Embedding of `ensureBootstrapData(forceRefresh)` (lines 108-160) in the sequential
case (no refresh already in flight): a snapshot younger than 24 hours is
returned with no I/O unless `forceRefresh`; otherwise a refresh runs.
The age test mirrors `(now - lastUpdated) / 3600000 < 24`. -/
def ensureBootstrapData (env : ClientEnv) (st : BootstrapCache) (force : Bool) :
    Except String BootstrapCache × BootstrapCache :=
  match st.lastUpdated with
  | some t =>
    if force = false ∧ (env.now - t) / 3600000 < 24 then (.ok st, st)
    else doRefresh env st
  | none => doRefresh env st

/-- Embedding of `ensureBootstrapData` including the single-flight check (line 124):
when `this.bootstrapLoadingPromise` is set, every caller returns that same
shared promise, so each attached caller receives the in-flight refresh's
one outcome `o` and triggers no work of its own. -/
def ensureWithLoading (env : ClientEnv) (st : BootstrapCache)
    (loading : Option (Except String BootstrapCache)) (force : Bool) :
    Except String BootstrapCache × BootstrapCache :=
  match loading with
  | some o => (o, st)
  | none => ensureBootstrapData env st force

/-- Embedding of `_findServerUrl(query, 'domain')` (lines 162-284): ensure bootstrap
data (a rejection propagates as a thrown error, `Except.error`), require
`lastUpdated`, then the suffix search and URL selection.  `Except.ok none`
is the source's `null` return ("no server found"). -/
def findServerUrl (env : ClientEnv) (st : BootstrapCache) (query : String) :
    Except String (Option String) × BootstrapCache :=
  match ensureBootstrapData env st false with
  | (.error e, st') => (.error e, st')
  | (.ok bootstrap, st') =>
    match bootstrap.lastUpdated with
    | none => (.error "Bootstrap data is not available.", st')
    | some _ =>
      match bootstrap.domain with
      | none => (.ok none, st')
      | some bd => (.ok (selectServerUrl (findDomainBaseUrls bd.services query)), st')

/-- Embedding of `RDAPClient.queryDomain` (lines 516-568).  Every thrown error reaching
the `catch` is a JavaScript `Error` (never RDAP-error-shaped), so the catch
returns the synthesized `Client Query Error` document carrying the thrown
message. -/
def queryDomain (env : ClientEnv) (st : BootstrapCache) (name : String) :
    RdapDoc × BootstrapCache :=
  match findServerUrl env st name with
  | (.error e, st') =>
    (errDoc 500 "Client Query Error"
      ["Failed to process RDAP query for domain " ++ name ++ ": " ++ e], st')
  | (.ok none, st') =>
    (errDoc 404 "Bootstrap Failed"
      ["No RDAP server found for the TLD of " ++ name ++ " in IANA bootstrap data."],
     st')
  | (.ok (some baseUrl), st') =>
    match env.resolveRef ("domain/" ++ env.encode name) baseUrl with
    | .error e =>
      (errDoc 500 "Client Query Error"
        ["Failed to process RDAP query for domain " ++ name ++ ": " ++ e], st')
    | .ok queryUrl =>
      let result := (makeRequest env.exec queryUrl 0 0 0).1
      if isRdapDomainResponse result || isRdapError result then (result, st')
      else
        (errDoc 500 "Client Response Error"
          ["Received unexpected object shape from RDAP server for a domain query."],
         st')

/-! Query orchestrator (`GET` in `src/app/api/rdap/route.ts`) -/

/-- A row of the `DomainCache` table (key `domainName` is unique). -/
structure DomainRow where
  domainName : String
  data : RdapDoc
deriving DecidableEq

/-- A row of the `IpCache` table (key `cidrBlock` is unique). -/
structure IpRow where
  cidrBlock : String
  data : RdapDoc
deriving DecidableEq

/-- The persistent store owned by Prisma/PostgreSQL. -/
structure Store where
  domainRows : List DomainRow
  ipRows : List IpRow
deriving DecidableEq

/-- Outcome of the raw-SQL IP containment lookup (route lines 62-80):
a most-specific containing row, no row, the `invalid input syntax for type
inet` error (treated as a miss), or any other database error (rethrown). -/
inductive IpFindOutcome where
  | found (d : RdapDoc)
  | missing
  | invalidInet
  | dbError (msg : String)

/-- Outcome of a `prisma.*.create` call. -/
inductive InsertOutcome where
  | ok
  | p2002
  | otherError (msg : String)
deriving DecidableEq

/-- Environment of one route invocation: `ipaddr.process` success
(`isIpAddress`), the raw-SQL containment query, the two RDAP client calls
as consumed by the route, and injectable write faults for the two `create`
calls (`some msg` makes the insert throw a non-P2002 error). -/
structure RouteEnv where
  isIp : String → Bool
  ipFind : String → IpFindOutcome
  liveDomain : String → RdapDoc
  liveIp : String → RdapDoc
  domainWriteFault : String → Option String
  ipWriteFault : String → Option String

/-- Embedding of `isDomain` (route lines 26-33): contains a dot, does not start with a
dot or hyphen nor end with a hyphen or dot, is not an IP address, and uses
only `[a-zA-Z0-9.-]`. -/
def edgeDotHyphen (q : String) : Bool :=
  (q.toList.head?.any fun c => c == '.' || c == '-') ||
  (q.toList.getLast?.any fun c => c == '-' || c == '.')

def allowedChars (q : String) : Bool :=
  !q.toList.isEmpty &&
  q.toList.all (fun c => c.isAlpha || c.isDigit || c == '.' || c == '-')

/-- The pure part of the `isDomain` test (everything except the
`!isIpAddress` conjunct). -/
def domainShape (q : String) : Bool :=
  q.toList.contains '.' && !edgeDotHyphen q && allowedChars q

def isDomainQ (env : RouteEnv) (q : String) : Bool :=
  q.toList.contains '.' && !edgeDotHyphen q && !env.isIp q && allowedChars q

/-- Model of `prisma.domainCache.findUnique({ where: { domainName: key } })`. -/
def findDomainRow (st : Store) (key : String) : Option DomainRow :=
  st.domainRows.find? (fun r => r.domainName == key)

/-- Model of `prisma.domainCache.create`: a unique-constraint violation (`P2002`)
exactly when the key already exists, unless the environment injects some
other write failure. -/
def insertDomain (env : RouteEnv) (st : Store) (key : String) (doc : RdapDoc) :
    Store × InsertOutcome :=
  match env.domainWriteFault key with
  | some m => (st, .otherError m)
  | none =>
    if st.domainRows.any (fun r => r.domainName == key) then (st, .p2002)
    else ({ st with domainRows := st.domainRows ++ [⟨key, doc⟩] }, .ok)

/-- Model of `prisma.ipCache.create`, same shape. -/
def insertIp (env : RouteEnv) (st : Store) (key : String) (doc : RdapDoc) :
    Store × InsertOutcome :=
  match env.ipWriteFault key with
  | some m => (st, .otherError m)
  | none =>
    if st.ipRows.any (fun r => r.cidrBlock == key) then (st, .p2002)
    else ({ st with ipRows := st.ipRows ++ [⟨key, doc⟩] }, .ok)

/-- The cache key derived from a live IP result (route lines 148-168):
the `cidr` field when truthy, else the first `cidr0_cidrs` element with
truthy `v4prefix` and `length` (note a present-but-empty `cidr0_cidrs`
array, like an absent one, yields no key; the `startAddress`/`endAddress`
arm of the source only logs and caches nothing). -/
def cidrToCache (d : RdapDoc) : Option String :=
  match d.cidr with
  | some c =>
    if c != "" then some c
    else none
  | none =>
    match d.cidr0_cidrs with
    | some l =>
      if l.length > 0 then
        (l.find? (fun c => (c.v4pfx.any fun p => p != "") &&
            (c.v4len.any fun n => n != 0))).map
          (fun c => c.v4pfx.getD "" ++ "/" ++ toString (c.v4len.getD 0))
      else none
    | none => none

/-- The route's status selection for a failed live lookup (lines 138-141):
`errorCode && errorCode >= 400 ? errorCode : 404`. -/
def errorStatusFor (d : RdapDoc) : Nat :=
  match d.errorCode with
  | some c => if c ≠ 0 ∧ 400 ≤ c then c.toNat else 404
  | none => 404

/-- The JSON body of a route response. -/
inductive ApiBody where
  | message (msg : String)
  | cacheResult (doc : RdapDoc) (cacheStatus : String) (type : String)
  | rdapError (doc : RdapDoc)
  | internalError (err : String)
deriving DecidableEq

structure ApiResponse where
  status : Nat
  body : ApiBody
deriving DecidableEq

/-- I/O performed by one route invocation: RDAP client calls, persistent
store reads, persistent store write attempts. -/
structure Trace where
  liveCalls : Nat
  storeReads : Nat
  storeWrites : Nat
deriving DecidableEq

/-- The cache-miss arm shared by both query types (route lines 111-228):
live lookup, error pass-through with derived status, best-effort cache
population with every write failure swallowed, and the live payload
returned with `cacheStatus: 'miss'`. -/
def handleMissDomain (env : RouteEnv) (st : Store) (searchTerm : String) :
    ApiResponse × Store × Trace :=
  let live := env.liveDomain searchTerm
  if isRdapError live then
    (⟨errorStatusFor live, .rdapError live⟩, st, ⟨1, 1, 0⟩)
  else if isRdapDomainResponse live then
    let ins := insertDomain env st (strLower searchTerm) live
    (⟨200, .cacheResult live "miss" "domain"⟩, ins.1, ⟨1, 1, 1⟩)
  else
    (⟨200, .cacheResult live "miss" "domain"⟩, st, ⟨1, 1, 0⟩)

def handleMissIp (env : RouteEnv) (st : Store) (searchTerm : String) :
    ApiResponse × Store × Trace :=
  let live := env.liveIp searchTerm
  if isRdapError live then
    (⟨errorStatusFor live, .rdapError live⟩, st, ⟨1, 1, 0⟩)
  else if isRdapIpNetworkResponse live then
    match cidrToCache live with
    | some key =>
      let ins := insertIp env st key live
      (⟨200, .cacheResult live "miss" "ip"⟩, ins.1, ⟨1, 1, 1⟩)
    | none => (⟨200, .cacheResult live "miss" "ip"⟩, st, ⟨1, 1, 0⟩)
  else
    (⟨200, .cacheResult live "miss" "ip"⟩, st, ⟨1, 1, 0⟩)

/-- Embedding of `GET` (route lines 35-247): parameter validation, classification,
cache check, and the hit/miss arms.  `query = none` models an absent
`?query=` parameter. -/
def routeGET (env : RouteEnv) (st : Store) (query : Option String) :
    ApiResponse × Store × Trace :=
  match query with
  | none =>
    (⟨400, .message "Query parameter is required and must be a non-empty string."⟩,
     st, ⟨0, 0, 0⟩)
  | some q =>
    if strTrim q = "" then
      (⟨400, .message "Query parameter is required and must be a non-empty string."⟩,
       st, ⟨0, 0, 0⟩)
    else
      let searchTerm := strTrim q
      if env.isIp searchTerm then
        match env.ipFind searchTerm with
        | .dbError msg =>
          (⟨500, .internalError msg⟩, st, ⟨0, 1, 0⟩)
        | .found d =>
          (⟨200, .cacheResult d "hit" "ip"⟩, st, ⟨0, 1, 0⟩)
        | .missing => handleMissIp env st searchTerm
        | .invalidInet => handleMissIp env st searchTerm
      else if isDomainQ env searchTerm then
        match findDomainRow st (strLower searchTerm) with
        | some row =>
          (⟨200, .cacheResult row.data "hit" "domain"⟩, st, ⟨0, 1, 0⟩)
        | none => handleMissDomain env st searchTerm
      else
        (⟨400, .message ("Query format not recognized as a valid IP Address/CIDR or Domain: "
            ++ searchTerm)⟩,
         st, ⟨0, 0, 0⟩)

/-- Modelled from the spec for comparison with the source (claim C3):
"wait `max(retryAfterHeader, exponentialBackoff(attempt)) + jitter`" when a
parseable server-provided retry delay is present. -/
def specWait429 (attempt : Nat) (retryAfter : Option String) (jitter : ℚ) : ℚ :=
  match retryAfter.bind parseIntJs with
  | none => 2 ^ attempt * 1000 + jitter
  | some sec => max ((sec : ℚ) * 1000) (2 ^ attempt * 1000) + jitter

/-- A default-configuration environment whose upstream always answers 429
with no error body. -/
def envAlways429 : ExecEnv :=
  { maxRedirects := 5, maxRetries := 2,
    upstream := fun _ => .httpError 429 none none "Request failed with status code 429" none,
    resolveUrl := fun loc _ => some loc,
    rand := fun _ => 0 }

/-- A default-configuration environment whose upstream always answers
`301 Moved Permanently` with a `location` header. -/
def envAlwaysRedirect : ExecEnv :=
  { maxRedirects := 5, maxRetries := 2,
    upstream := fun _ =>
      .httpError 301 (some "https://next.example.net/")
        none "Request failed with status code 301" none,
    resolveUrl := fun loc _ => some loc,
    rand := fun _ => 0 }

/-- An environment whose upstream answers `302 Found` with no `location`
header. -/
def env302NoLocation : ExecEnv :=
  { maxRedirects := 5, maxRetries := 2,
    upstream := fun _ =>
      .httpError 302 none none "Request failed with status code 302" none,
    resolveUrl := fun loc _ => some loc,
    rand := fun _ => 0 }

/-- Registry fragment with entries for both `com` and `example.com`. -/
def registryComAndExample : List BootstrapServiceEntry :=
  [(["com"], ["https://rdap.verisign.com/com/v1/"]),
   (["example.com"], ["https://rdap.example.com/rdap/"])]

/-- A minimal bootstrap document for witnesses. -/
def bdW : BootstrapData := ⟨"1.0", "2025-01-01", [(["com"], ["https://rdap.verisign.com/com/v1/"])]⟩

/-- A client environment whose IPv4 bootstrap fetch fails. -/
def cenvFailW : ClientEnv :=
  { fetchDomain := .ok bdW, fetchIpv4 := .error "connect ETIMEDOUT",
    fetchIpv6 := .ok bdW, now := 1700000000000, exec := envAlways429,
    encode := fun s => s, resolveRef := fun r b => .ok (b ++ r) }

/-- A client environment whose three bootstrap fetches all succeed. -/
def cenvOkW : ClientEnv :=
  { fetchDomain := .ok bdW, fetchIpv4 := .ok bdW, fetchIpv6 := .ok bdW,
    now := 1700000000000, exec := envAlways429,
    encode := fun s => s, resolveRef := fun r b => .ok (b ++ r) }

/-- The never-loaded cache. -/
def cacheEmptyW : BootstrapCache := ⟨none, none, none, none⟩

/-- Route environment backed by the failing-bootstrap client. -/
def routeEnvC5 : RouteEnv :=
  { isIp := fun _ => false,
    ipFind := fun _ => .missing,
    liveDomain := fun s => (queryDomain cenvFailW cacheEmptyW s).1,
    liveIp := fun _ => errDoc 500 "RDAP Client Error" ["unused"],
    domainWriteFault := fun _ => none,
    ipWriteFault := fun _ => none }

/-- The empty persistent store. -/
def storeEmptyW : Store := ⟨[], []⟩

/-- A successful live domain payload for witnesses. -/
def liveDocW : RdapDoc :=
  { objectClassName := some "domain", errorCode := none, title := none,
    description := none, ldhName := some "EXAMPLE.ORG", cidr := none,
    cidr0_cidrs := none, startAddress := none, endAddress := none }

/-- A plain route environment: nothing parses as an IP, the live lookup
returns `liveDocW`, writes succeed. -/
def envPlainW : RouteEnv :=
  { isIp := fun _ => false,
    ipFind := fun _ => .missing,
    liveDomain := fun _ => liveDocW,
    liveIp := fun _ => liveDocW,
    domainWriteFault := fun _ => none,
    ipWriteFault := fun _ => none }

/-- Route environment that injects a non-P2002 write failure into every
cache insert. -/
def envWriteFaultW : RouteEnv :=
  { isIp := fun _ => false,
    ipFind := fun _ => .missing,
    liveDomain := fun _ => liveDocW,
    liveIp := fun _ => liveDocW,
    domainWriteFault := fun _ => some "connection lost during INSERT",
    ipWriteFault := fun _ => some "connection lost during INSERT" }

/-! Step lemmas for the executor -/

/-- A 429 with retries exhausted is terminal. -/
theorem makeRequest_429_exhausted (env : ExecEnv) (url : String)
    (rc attempt n : Nat) (loc ra : Option String) (msg : String)
    (d : Option RdapDoc)
    (hup : env.upstream n = .httpError 429 loc ra msg d)
    (hrc : rc ≤ env.maxRedirects) (hatt : ¬ attempt < env.maxRetries) :
    makeRequest env url rc attempt n =
      (serverBodyOr d (rateLimitedDoc url), [url], []) := by
  rw [makeRequest.eq_def, dif_neg (by omega), hup]
  norm_num [hatt]

/-- A 429 with retries remaining waits `waitTime429` and retries the same
URL with `attempt + 1`. -/
theorem makeRequest_429_retry (env : ExecEnv) (url : String)
    (rc attempt n : Nat) (loc ra : Option String) (msg : String)
    (d : Option RdapDoc)
    (hup : env.upstream n = .httpError 429 loc ra msg d)
    (hrc : rc ≤ env.maxRedirects) (hatt : attempt < env.maxRetries) :
    makeRequest env url rc attempt n =
      ((makeRequest env url rc (attempt + 1) (n + 1)).1,
       url :: (makeRequest env url rc (attempt + 1) (n + 1)).2.1,
       waitTime429 attempt ra (env.rand n) ::
         (makeRequest env url rc (attempt + 1) (n + 1)).2.2) := by
  rw [makeRequest.eq_def, dif_neg (by omega), hup]
  norm_num [hatt]

/-- A 3xx with a `location` header that resolves is followed:
`redirectCount + 1`, `attempt` reset to `0`. -/
theorem makeRequest_redirect (env : ExecEnv) (url nextUrl : String)
    (rc attempt n : Nat) (status : Int) (loc : String) (ra : Option String)
    (msg : String) (d : Option RdapDoc)
    (hup : env.upstream n = .httpError status (some loc) ra msg d)
    (hst : 300 ≤ status ∧ status < 400)
    (hres : env.resolveUrl loc url = some nextUrl)
    (hrc : rc ≤ env.maxRedirects) :
    makeRequest env url rc attempt n =
      ((makeRequest env nextUrl (rc + 1) 0 (n + 1)).1,
       url :: (makeRequest env nextUrl (rc + 1) 0 (n + 1)).2.1,
       (makeRequest env nextUrl (rc + 1) 0 (n + 1)).2.2) := by
  rw [makeRequest.eq_def, dif_neg (by omega), hup]
  simp only [if_pos hst, hres]

/-- Entering with `redirectCount` beyond the limit is terminal
`TooManyRedirects`, with no HTTP attempt at all. -/
theorem makeRequest_overLimit (env : ExecEnv) (url : String)
    (rc attempt n : Nat) (hrc : rc > env.maxRedirects) :
    makeRequest env url rc attempt n =
      (tooManyRedirectsDoc env.maxRedirects url, [], []) := by
  rw [makeRequest.eq_def, dif_pos hrc]

/-- A 3xx without a `location` header is terminal with the status itself
as `errorCode`: no follow, no retry, one attempt. -/
theorem makeRequest_3xx_noLocation (env : ExecEnv) (url : String)
    (rc attempt n : Nat) (status : Int) (ra : Option String) (msg : String)
    (d : Option RdapDoc)
    (hup : env.upstream n = .httpError status none ra msg d)
    (hst : 300 ≤ status ∧ status < 400)
    (hrc : rc ≤ env.maxRedirects) :
    makeRequest env url rc attempt n =
      (unhandledStatusDoc status url, [url], []) := by
  rw [makeRequest.eq_def, dif_neg (by omega), hup]
  simp only [if_pos hst]

/-- Under an upstream that answers 429 to every attempt, the executor makes
exactly `maxRetries - attempt + 1` further attempts against the same URL
and ends in the terminal 429 branch. -/
theorem makeRequest_always429 (env : ExecEnv) (locOf raOf : Nat → Option String)
    (msgOf : Nat → String) (dOf : Nat → Option RdapDoc)
    (hup : ∀ m, env.upstream m = .httpError 429 (locOf m) (raOf m) (msgOf m) (dOf m)) :
    ∀ (k attempt n : Nat) (url : String) (rc : Nat),
      env.maxRetries - attempt = k → rc ≤ env.maxRedirects →
      (makeRequest env url rc attempt n).1 =
        serverBodyOr (dOf (n + k)) (rateLimitedDoc url) ∧
      (makeRequest env url rc attempt n).2.1 = List.replicate (k + 1) url := by
  intro k
  induction k with
  | zero =>
    intro attempt n url rc hk hrc
    rw [makeRequest_429_exhausted env url rc attempt n _ _ _ _ (hup n) hrc (by omega)]
    simp
  | succ k ih =>
    intro attempt n url rc hk hrc
    rw [makeRequest_429_retry env url rc attempt n _ _ _ _ (hup n) hrc (by omega)]
    obtain ⟨h1, h2⟩ := ih (attempt + 1) (n + 1) url rc (by omega) hrc
    have hn : n + 1 + k = n + (k + 1) := by omega
    rw [hn] at h1
    exact ⟨h1, by simp [h2, List.replicate_succ]⟩

/-- Under an upstream that answers every attempt with a 3xx carrying a
resolvable `location`, the chain performs exactly `maxRedirects + 1 - rc`
attempts and ends in `TooManyRedirects`. -/
theorem makeRequest_alwaysRedirect (env : ExecEnv)
    (stOf : Nat → Int) (locOf : Nat → String) (raOf : Nat → Option String)
    (msgOf : Nat → String) (dOf : Nat → Option RdapDoc)
    (hup : ∀ m, env.upstream m =
      .httpError (stOf m) (some (locOf m)) (raOf m) (msgOf m) (dOf m))
    (hst : ∀ m, 300 ≤ stOf m ∧ stOf m < 400)
    (hres : ∀ loc u, (env.resolveUrl loc u).isSome) :
    ∀ (k rc attempt n : Nat) (url : String),
      env.maxRedirects + 1 - rc = k →
      (makeRequest env url rc attempt n).2.1.length = k ∧
      (makeRequest env url rc attempt n).1.errorCode = some 508 ∧
      (makeRequest env url rc attempt n).1.title = some "Too Many Redirects" := by
  intro k
  induction k with
  | zero =>
    intro rc attempt n url hk
    rw [makeRequest_overLimit env url rc attempt n (by omega)]
    simp [tooManyRedirectsDoc, errDoc]
  | succ k ih =>
    intro rc attempt n url hk
    obtain ⟨next, hnext⟩ := Option.isSome_iff_exists.mp (hres (locOf n) url)
    rw [makeRequest_redirect env url next rc attempt n _ _ _ _ _
      (hup n) (hst n) hnext (by omega)]
    obtain ⟨h1, h2, h3⟩ := ih (rc + 1) 0 (n + 1) next (by omega)
    exact ⟨by simp [h1], h2, h3⟩

/-! Claims: one theorem per claim, with witnesses and counterexamples -/

/-- C1: For every URL, when the upstream returns HTTP 429 on every
attempt, `_makeRequest` performs exactly `maxRetries + 1` HTTP attempts
against that URL and then returns the terminal rate-limit structured
error: the server-provided error body when it carries a truthy
`errorCode`, else the synthesized `429 Too Many Requests` document.  The
executor is a total function into `RdapDoc` — no exception escapes it. -/
theorem C1_always429_exhausts_then_rate_limited (env : ExecEnv) (url : String)
    (locOf raOf : Nat → Option String) (msgOf : Nat → String)
    (dOf : Nat → Option RdapDoc)
    (hup : ∀ m, env.upstream m = .httpError 429 (locOf m) (raOf m) (msgOf m) (dOf m)) :
    (makeRequest env url 0 0 0).2.1 = List.replicate (env.maxRetries + 1) url ∧
    (makeRequest env url 0 0 0).1 =
      serverBodyOr (dOf env.maxRetries) (rateLimitedDoc url) := by
  obtain ⟨h1, h2⟩ := makeRequest_always429 env locOf raOf msgOf dOf hup
    env.maxRetries 0 0 url 0 (by omega) (by omega)
  rw [Nat.zero_add] at h1
  exact ⟨h2, h1⟩

/-- Witness for C1: with the default `maxRetries = 2`, an always-429
upstream gets exactly 3 attempts and the synthesized `RateLimited` error. -/
theorem C1_witness :
    (makeRequest envAlways429 "https://rdap.example.net/domain/x" 0 0 0).2.1 =
      List.replicate 3 "https://rdap.example.net/domain/x" ∧
    (makeRequest envAlways429 "https://rdap.example.net/domain/x" 0 0 0).1 =
      serverBodyOr none (rateLimitedDoc "https://rdap.example.net/domain/x") :=
  C1_always429_exhausts_then_rate_limited envAlways429
    "https://rdap.example.net/domain/x"
    (fun _ => none) (fun _ => none)
    (fun _ => "Request failed with status code 429") (fun _ => none)
    (fun _ => rfl)

/-- C2: A 3xx response carrying a `location` header is followed to the
resolved absolute URL with `redirectCount + 1` and `attempt` reset to `0`
(first conjunct), and under an upstream that redirects on every attempt the
chain performs exactly `maxRedirects + 1` HTTP attempts (6 by default) and
terminates with the `TooManyRedirects` error (`errorCode 508`): the 6th
redirect response is never followed. -/
theorem C2_redirects_followed_and_bounded (env : ExecEnv)
    (stOf : Nat → Int) (locOf : Nat → String) (raOf : Nat → Option String)
    (msgOf : Nat → String) (dOf : Nat → Option RdapDoc)
    (url next : String) (rc attempt n : Nat)
    (hup : ∀ m, env.upstream m =
      .httpError (stOf m) (some (locOf m)) (raOf m) (msgOf m) (dOf m))
    (hst : ∀ m, 300 ≤ stOf m ∧ stOf m < 400)
    (hres : ∀ loc u, (env.resolveUrl loc u).isSome)
    (hnext : env.resolveUrl (locOf n) url = some next)
    (hrc : rc ≤ env.maxRedirects) :
    makeRequest env url rc attempt n =
      ((makeRequest env next (rc + 1) 0 (n + 1)).1,
       url :: (makeRequest env next (rc + 1) 0 (n + 1)).2.1,
       (makeRequest env next (rc + 1) 0 (n + 1)).2.2) ∧
    (makeRequest env url 0 0 0).2.1.length = env.maxRedirects + 1 ∧
    (makeRequest env url 0 0 0).1.errorCode = some 508 ∧
    (makeRequest env url 0 0 0).1.title = some "Too Many Redirects" := by
  refine ⟨makeRequest_redirect env url next rc attempt n _ _ _ _ _
    (hup n) (hst n) hnext hrc, ?_⟩
  exact makeRequest_alwaysRedirect env stOf locOf raOf msgOf dOf hup hst hres
    (env.maxRedirects + 1) 0 0 0 url (by omega)

/-- Witness for C2: 6 consecutive redirects make exactly 6 attempts
(`maxRedirects + 1 = 6`), then `TooManyRedirects`. -/
theorem C2_witness :
    makeRequest envAlwaysRedirect "https://a.example.net/" 0 0 0 =
      ((makeRequest envAlwaysRedirect "https://next.example.net/" 1 0 1).1,
       "https://a.example.net/" ::
         (makeRequest envAlwaysRedirect "https://next.example.net/" 1 0 1).2.1,
       (makeRequest envAlwaysRedirect "https://next.example.net/" 1 0 1).2.2) ∧
    (makeRequest envAlwaysRedirect "https://a.example.net/" 0 0 0).2.1.length = 6 ∧
    (makeRequest envAlwaysRedirect "https://a.example.net/" 0 0 0).1.errorCode =
      some 508 ∧
    (makeRequest envAlwaysRedirect "https://a.example.net/" 0 0 0).1.title =
      some "Too Many Redirects" :=
  C2_redirects_followed_and_bounded envAlwaysRedirect
    (fun _ => 301) (fun _ => "https://next.example.net/") (fun _ => none)
    (fun _ => "Request failed with status code 301") (fun _ => none)
    "https://a.example.net/" "https://next.example.net/" 0 0 0
    (fun _ => rfl) (fun _ => by norm_num) (fun _ _ => rfl) rfl (by norm_num)

/-- C3 counterexample: At `attempt = 1` with `Retry-After: 1`, the code
waits `1 * 1000 + rand * 500` ms — with zero jitter, 1000 ms and never more
than 1500 ms — while the claimed formula `max(retryAfter, 2^attempt * 1000)
+ jitter` is at least 2000 ms.  The code does not take the maximum with the
exponential backoff. -/
theorem C3_counterexample :
    waitTime429 1 (some "1") 0 = 1000 ∧
    specWait429 1 (some "1") 0 = 2000 ∧
    waitTime429 1 (some "1") 0 ≠ specWait429 1 (some "1") 0 := by
  have hp : (some "1").bind parseIntJs = some 1 := by decide
  have h1 : waitTime429 1 (some "1") 0 = 1000 := by
    rw [waitTime429, hp]; norm_num
  have h2 : specWait429 1 (some "1") 0 = 2000 := by
    rw [specWait429, hp]
    dsimp only
    rw [max_eq_right (by norm_num)]
    norm_num
  exact ⟨h1, h2, by rw [h1, h2]; norm_num⟩

/-- C3 amended: For every 429 received while retries remain, the wait
recorded before retrying the same URL is `retryAfterSec * 1000 ms +
rand * 500 ms` when the `Retry-After` header parses as an integer, and
`2 ^ attempt * 1000 ms + rand * 1000 ms` otherwise (`rand` is the
`Math.random()` draw in `[0, 1)`). -/
theorem C3_wait_formula (env : ExecEnv) (url : String) (rc attempt n : Nat)
    (loc ra : Option String) (msg : String) (d : Option RdapDoc)
    (hup : env.upstream n = .httpError 429 loc ra msg d)
    (hrc : rc ≤ env.maxRedirects) (hatt : attempt < env.maxRetries) :
    (makeRequest env url rc attempt n).2.2.head? =
      some ((ra.bind parseIntJs).elim
        (2 ^ attempt * 1000 + env.rand n * 1000)
        (fun sec => (sec : ℚ) * 1000 + env.rand n * 500)) := by
  rw [makeRequest_429_retry env url rc attempt n loc ra msg d hup hrc hatt]
  cases h : ra.bind parseIntJs <;> simp [waitTime429, h]

/-- Witness for the amended C3: first 429 retry with no `Retry-After`
header and `rand = 0` waits `2 ^ 0 * 1000 = 1000` ms. -/
theorem C3_witness :
    (makeRequest envAlways429 "https://rdap.example.net/domain/x" 0 0 0).2.2.head? =
      some 1000 := by
  have h := C3_wait_formula envAlways429 "https://rdap.example.net/domain/x"
    0 0 0 none none "Request failed with status code 429" none rfl
    (by norm_num [envAlways429]) (by norm_num [envAlways429])
  simpa [envAlways429] using h

/-- C10: A 3xx response without a `location` header is terminal after a
single attempt — no follow, no retry — and its structured error carries the
3xx status itself as `errorCode` (a value below 400), which the route's
status selection then maps to the caller-facing HTTP status 404. -/
theorem C10_3xx_without_location_maps_to_404 (env : ExecEnv) (url : String)
    (rc attempt n : Nat) (status : Int) (ra : Option String) (msg : String)
    (d : Option RdapDoc)
    (hup : env.upstream n = .httpError status none ra msg d)
    (hst : 300 ≤ status ∧ status < 400)
    (hrc : rc ≤ env.maxRedirects) :
    makeRequest env url rc attempt n = (unhandledStatusDoc status url, [url], []) ∧
    (unhandledStatusDoc status url).errorCode = some status ∧
    errorStatusFor (unhandledStatusDoc status url) = 404 := by
  refine ⟨makeRequest_3xx_noLocation env url rc attempt n status ra msg d
    hup hst hrc, rfl, ?_⟩
  simp only [errorStatusFor, unhandledStatusDoc, errDoc]
  rw [if_neg (by omega)]

/-- Witness for C10. -/
theorem C10_witness :
    makeRequest env302NoLocation "https://rdap.example.net/domain/x" 0 0 0 =
      (unhandledStatusDoc 302 "https://rdap.example.net/domain/x",
       ["https://rdap.example.net/domain/x"], []) ∧
    (unhandledStatusDoc 302 "https://rdap.example.net/domain/x").errorCode =
      some 302 ∧
    errorStatusFor
      (unhandledStatusDoc 302 "https://rdap.example.net/domain/x") = 404 :=
  C10_3xx_without_location_maps_to_404 env302NoLocation
    "https://rdap.example.net/domain/x" 0 0 0 302 none
    "Request failed with status code 302" none rfl (by norm_num) (by norm_num)

/-- The suffix loop takes the first `i` (most-specific suffix) for which
some service entry's `matchKeys` contains `labels.slice(i).join('.')`, and
within that suffix the first such entry in registry order. -/
theorem searchSuffixes_first_match (services : List BootstrapServiceEntry) :
    ∀ (ls : List String) (i : Nat) (e : BootstrapServiceEntry),
      i < ls.length →
      (∀ j < i,
        services.find? (fun svc => svc.1.contains (joinDots (ls.drop j))) = none) →
      services.find? (fun svc => svc.1.contains (joinDots (ls.drop i))) = some e →
      searchSuffixes services ls = some e.2 := by
  intro ls
  induction ls with
  | nil => intro i e hi _ _; simp at hi
  | cons label rest ih =>
    intro i e hi hnone hfound
    cases i with
    | zero =>
      rw [List.drop_zero] at hfound
      rw [searchSuffixes, hfound]
    | succ i =>
      have h0 := hnone 0 (Nat.succ_pos i)
      rw [List.drop_zero] at h0
      rw [searchSuffixes, h0]
      exact ih i e (by simpa using hi)
        (fun j hj => hnone (j + 1) (by omega)) hfound

/-- C4: Domain resolution tries the dot-suffixes of the lowercased
query in order of increasing start index — the full query first, the bare
final label last — and returns the `baseUrls` of the first service entry
whose `matchKeys` contains the exact suffix, making the match
most-specific-first. -/
theorem C4_domain_match_most_specific_first
    (services : List BootstrapServiceEntry) (query : String) (i : Nat)
    (e : BootstrapServiceEntry)
    (hi : i < (splitDots (strLower query)).length)
    (hnone : ∀ j < i,
      services.find? (fun svc =>
        svc.1.contains (joinDots ((splitDots (strLower query)).drop j))) = none)
    (hfound : services.find? (fun svc =>
      svc.1.contains (joinDots ((splitDots (strLower query)).drop i))) = some e) :
    findDomainBaseUrls services query = some e.2 :=
  searchSuffixes_first_match services (splitDots (strLower query)) i e
    hi hnone hfound

/-- Witness for C4: `foo.example.com` resolves via the `example.com` entry,
not `com`. -/
theorem C4_witness :
    findDomainBaseUrls registryComAndExample "foo.example.com" =
      some ["https://rdap.example.com/rdap/"] :=
  C4_domain_match_most_specific_first registryComAndExample "foo.example.com" 1
    (["example.com"], ["https://rdap.example.com/rdap/"])
    (by decide)
    (by
      intro j hj
      have hj0 : j = 0 := by omega
      subst hj0
      decide)
    (by decide)

/-- C9: A refresh fails as a whole when any of the three bootstrap
fetches/parses fails, leaving the previous snapshot (all three
sub-registries and `lastUpdated`) untouched; on success the snapshot is
replaced atomically by the complete new one stamped with the current time;
callers attached to an in-flight refresh all receive that refresh's one
shared outcome; and a never-loaded cache always runs the refresh. -/
theorem C9_refresh_all_or_nothing (env : ClientEnv) (st : BootstrapCache)
    (d i4 i6 : BootstrapData) (o : Except String BootstrapCache) (force : Bool) :
    (fetchesOk env = false →
      (doRefresh env st).1.isOk = false ∧ (doRefresh env st).2 = st) ∧
    (env.fetchDomain = .ok d → env.fetchIpv4 = .ok i4 → env.fetchIpv6 = .ok i6 →
      doRefresh env st =
        (.ok ⟨some d, some i4, some i6, some env.now⟩,
         ⟨some d, some i4, some i6, some env.now⟩)) ∧
    ensureWithLoading env st (some o) force = (o, st) ∧
    (st.lastUpdated = none → ensureWithLoading env st none force = doRefresh env st) := by
  refine ⟨?_, ?_, rfl, ?_⟩
  · intro hfail
    cases hd : env.fetchDomain <;> cases h4 : env.fetchIpv4 <;>
      cases h6 : env.fetchIpv6 <;>
      simp_all [fetchesOk, doRefresh, refreshResult, Except.isOk, Except.toBool]
  · intro hd h4 h6
    simp [doRefresh, refreshResult, hd, h4, h6]
  · intro hnone
    simp [ensureWithLoading, ensureBootstrapData, hnone]

/-- Witness for C9: with one failing fetch the refresh fails and the
snapshot is unchanged; with all three succeeding the snapshot is replaced
wholesale. -/
theorem C9_witness :
    ((doRefresh cenvFailW cacheEmptyW).1.isOk = false ∧
      (doRefresh cenvFailW cacheEmptyW).2 = cacheEmptyW) ∧
    doRefresh cenvOkW cacheEmptyW =
      (.ok ⟨some bdW, some bdW, some bdW, some 1700000000000⟩,
       ⟨some bdW, some bdW, some bdW, some 1700000000000⟩) :=
  ⟨(C9_refresh_all_or_nothing cenvFailW cacheEmptyW bdW bdW bdW
      (.ok cacheEmptyW) false).1 rfl,
   (C9_refresh_all_or_nothing cenvOkW cacheEmptyW bdW bdW bdW
      (.ok cacheEmptyW) false).2.1 rfl rfl rfl⟩

/-- When the registry never loaded and the refresh fails, `queryDomain`'s
`catch` sees a thrown JavaScript `Error` (never RDAP-error-shaped) and
returns the synthesized `500 Client Query Error` document. -/
theorem queryDomain_bootstrap_never_loaded (env : ClientEnv)
    (st : BootstrapCache) (name : String)
    (hnone : st.lastUpdated = none) (hfail : fetchesOk env = false) :
    ∃ e, refreshResult env = .error e ∧
      (queryDomain env st name).1 =
        errDoc 500 "Client Query Error"
          ["Failed to process RDAP query for domain " ++ name ++ ": " ++ e] := by
  have hre : ∃ e, refreshResult env = .error e := by
    cases hd : env.fetchDomain <;> cases h4 : env.fetchIpv4 <;>
      cases h6 : env.fetchIpv6 <;>
      simp_all [fetchesOk, refreshResult, Except.isOk, Except.toBool]
  obtain ⟨e, he⟩ := hre
  refine ⟨e, he, ?_⟩
  simp [queryDomain, findServerUrl, ensureBootstrapData, hnone, doRefresh, he]

/-- C5 amended: A lookup performed while the bootstrap registry has
never loaded successfully, when the attempted load fails, does not surface
as a 404-class `BootstrapUnavailable`: the client's `catch` wraps the
thrown refresh error into a `500 Client Query Error` structured error, and
the route surfaces it with caller-facing HTTP status 500. -/
theorem C5_bootstrap_unavailable_is_500 (renv : RouteEnv) (cenv : ClientEnv)
    (st0 : BootstrapCache) (store : Store) (q : String)
    (hlive : renv.liveDomain = fun s => (queryDomain cenv st0 s).1)
    (hnone : st0.lastUpdated = none) (hfail : fetchesOk cenv = false)
    (hs : ¬ strTrim q = "") (hip : renv.isIp (strTrim q) = false)
    (hdom : isDomainQ renv (strTrim q) = true)
    (hmiss : findDomainRow store (strLower (strTrim q)) = none) :
    ∃ e, (routeGET renv store (some q)).1 =
      ⟨500, .rdapError (errDoc 500 "Client Query Error"
        ["Failed to process RDAP query for domain " ++ strTrim q ++ ": " ++ e])⟩ := by
  obtain ⟨e, _, hq⟩ :=
    queryDomain_bootstrap_never_loaded cenv st0 (strTrim q) hnone hfail
  refine ⟨e, ?_⟩
  simp only [routeGET, hs, if_neg hs, hip, hdom, hmiss, if_false, if_true,
    Bool.false_eq_true, Bool.true_eq_false]
  simp only [handleMissDomain, hlive, hq]
  norm_num [isRdapError, errDoc, errorStatusFor]
  decide

/-- C5 counterexample: With the bootstrap registry never loaded and
the load failing, the lookup for `example.com` returns caller-facing HTTP
status 500 — not the 404-class status the claim asserts. -/
theorem C5_counterexample :
    (routeGET routeEnvC5 storeEmptyW (some "example.com")).1.status = 500 ∧
    ¬ (routeGET routeEnvC5 storeEmptyW (some "example.com")).1.status = 404 := by
  refine ⟨by decide, by decide⟩

/-- Witness for the amended C5. -/
theorem C5_witness :
    ∃ e, (routeGET routeEnvC5 storeEmptyW (some "example.com")).1 =
      ⟨500, .rdapError (errDoc 500 "Client Query Error"
        ["Failed to process RDAP query for domain example.com: " ++ e])⟩ := by
  have h := C5_bootstrap_unavailable_is_500 routeEnvC5 cenvFailW cacheEmptyW
    storeEmptyW "example.com" rfl rfl rfl (by decide) rfl (by decide) rfl
  simpa using h

/-- A `find?` over an append skips a prefix with no match. -/
theorem find?_append_none {α : Type} (p : α → Bool) (l1 l2 : List α)
    (h : l1.find? p = none) : (l1 ++ l2).find? p = l2.find? p := by
  induction l1 with
  | nil => simp
  | cons x xs ih =>
    rw [List.find?_cons] at h
    rcases hx : p x with _ | _
    · rw [List.cons_append, List.find?_cons, hx]
      rw [hx] at h
      exact ih h
    · rw [hx] at h
      simp at h

/-- A `find?` miss gives an `any` miss for the same key test. -/
theorem any_eq_false_of_find?_none {α : Type} (p : α → Bool) (l : List α)
    (h : l.find? p = none) : l.any p = false := by
  rw [List.any_eq_false]
  intro x hx
  have := List.find?_eq_none.mp h x hx
  simpa using this

/-- C6: A first domain lookup that misses the cache performs exactly one
live call and appends a row under the lowercased name, returning the live
payload with `status = miss`; an immediately following identical lookup is
answered from that row with `status = hit`, zero live calls, and an
unchanged store. -/
theorem C6_read_through_idempotence (env : RouteEnv) (st : Store) (q : String)
    (live : RdapDoc)
    (hs : ¬ strTrim q = "")
    (hip : env.isIp (strTrim q) = false)
    (hdom : isDomainQ env (strTrim q) = true)
    (hmiss : findDomainRow st (strLower (strTrim q)) = none)
    (hlive : env.liveDomain (strTrim q) = live)
    (hnoterr : isRdapError live = false)
    (hshape : isRdapDomainResponse live = true)
    (hfault : env.domainWriteFault (strLower (strTrim q)) = none) :
    routeGET env st (some q) =
      (⟨200, .cacheResult live "miss" "domain"⟩,
       { st with domainRows := st.domainRows ++ [⟨strLower (strTrim q), live⟩] },
       ⟨1, 1, 1⟩) ∧
    routeGET env
        { st with domainRows := st.domainRows ++ [⟨strLower (strTrim q), live⟩] }
        (some q) =
      (⟨200, .cacheResult live "hit" "domain"⟩,
       { st with domainRows := st.domainRows ++ [⟨strLower (strTrim q), live⟩] },
       ⟨0, 1, 0⟩) := by
  have hany : (st.domainRows.any fun r => r.domainName == strLower (strTrim q)) = false :=
    any_eq_false_of_find?_none _ _ hmiss
  constructor
  · simp only [routeGET, if_neg hs, hip, hdom, hmiss, Bool.false_eq_true,
      if_false, if_true]
    simp only [handleMissDomain, hlive, hnoterr, hshape, Bool.false_eq_true,
      if_false, if_true, insertDomain, hfault, hany]
  · have hfind2 : findDomainRow
        { st with domainRows := st.domainRows ++ [⟨strLower (strTrim q), live⟩] }
        (strLower (strTrim q)) = some ⟨strLower (strTrim q), live⟩ := by
      unfold findDomainRow at hmiss ⊢
      rw [find?_append_none _ _ _ hmiss]
      simp
    simp only [routeGET, if_neg hs, hip, hdom, hfind2, Bool.false_eq_true,
      if_false, if_true]

/-- Witness for C6: first lookup for `example.org` misses, writes, and
answers `miss`; the second is a `hit` with no live call. -/
theorem C6_witness :
    routeGET envPlainW storeEmptyW (some "example.org") =
      (⟨200, .cacheResult liveDocW "miss" "domain"⟩,
       { storeEmptyW with domainRows :=
          storeEmptyW.domainRows ++ [⟨strLower (strTrim "example.org"), liveDocW⟩] },
       ⟨1, 1, 1⟩) ∧
    routeGET envPlainW
        { storeEmptyW with domainRows :=
            storeEmptyW.domainRows ++ [⟨strLower (strTrim "example.org"), liveDocW⟩] }
        (some "example.org") =
      (⟨200, .cacheResult liveDocW "hit" "domain"⟩,
       { storeEmptyW with domainRows :=
          storeEmptyW.domainRows ++ [⟨strLower (strTrim "example.org"), liveDocW⟩] },
       ⟨0, 1, 0⟩) :=
  C6_read_through_idempotence envPlainW storeEmptyW "example.org" liveDocW
    (by decide) rfl (by decide) rfl rfl (by decide) (by decide) rfl

/-- C7: A trimmed query that fails the address parse and fails the
domain test (contains a dot, no leading/trailing dot or hyphen, only
`[A-Za-z0-9.-]`) is rejected with the 400 `InvalidInput` response before
any live call or store operation: the trace is all zeros and the store is
untouched. -/
theorem C7_invalid_input_rejected_before_io (env : RouteEnv) (st : Store)
    (q : String)
    (hs : ¬ strTrim q = "")
    (hip : env.isIp (strTrim q) = false)
    (hshape : domainShape (strTrim q) = false) :
    routeGET env st (some q) =
      (⟨400, .message ("Query format not recognized as a valid IP Address/CIDR or Domain: "
          ++ strTrim q)⟩,
       st, ⟨0, 0, 0⟩) := by
  have hdom : isDomainQ env (strTrim q) = false := by
    simp only [isDomainQ, hip, Bool.not_false, Bool.and_true]
    simpa [domainShape] using hshape
  simp only [routeGET, if_neg hs, hip, hdom, Bool.false_eq_true, if_false]

/-- Witness for C7: `-bad-.com` (leading hyphen) is rejected with 400 and
zero I/O. -/
theorem C7_witness :
    routeGET envPlainW storeEmptyW (some "-bad-.com") =
      (⟨400, .message ("Query format not recognized as a valid IP Address/CIDR or Domain: "
          ++ strTrim "-bad-.com")⟩,
       storeEmptyW, ⟨0, 0, 0⟩) :=
  C7_invalid_input_rejected_before_io envPlainW storeEmptyW "-bad-.com"
    (by decide) rfl (by decide)

/-- C8: For every successful live lookup (IP or domain), the response
is the live payload with `status = miss` and HTTP 200 whatever the
best-effort cache write does: the environment quantifies over every write
behavior — success, unique-constraint violation, or any injected write
error — and over payloads with or without a derivable cache key, and none
of them appears in the response. -/
theorem C8_cache_write_never_affects_response (env : RouteEnv) (st : Store)
    (q : String) (hs : ¬ strTrim q = "") :
    (env.isIp (strTrim q) = true →
      (env.ipFind (strTrim q) = .missing ∨ env.ipFind (strTrim q) = .invalidInet) →
      isRdapError (env.liveIp (strTrim q)) = false →
      (routeGET env st (some q)).1 =
        ⟨200, .cacheResult (env.liveIp (strTrim q)) "miss" "ip"⟩) ∧
    (env.isIp (strTrim q) = false → isDomainQ env (strTrim q) = true →
      findDomainRow st (strLower (strTrim q)) = none →
      isRdapError (env.liveDomain (strTrim q)) = false →
      (routeGET env st (some q)).1 =
        ⟨200, .cacheResult (env.liveDomain (strTrim q)) "miss" "domain"⟩) := by
  constructor
  · intro hip hfind hnoterr
    have hmi : (handleMissIp env st (strTrim q)).1 =
        ⟨200, .cacheResult (env.liveIp (strTrim q)) "miss" "ip"⟩ := by
      simp only [handleMissIp, hnoterr, Bool.false_eq_true, if_false]
      split
      · split <;> rfl
      · rfl
    rcases hfind with h | h <;>
      simp only [routeGET, if_neg hs, hip, if_true, h, hmi]
  · intro hip hdom hmiss hnoterr
    have hmd : (handleMissDomain env st (strTrim q)).1 =
        ⟨200, .cacheResult (env.liveDomain (strTrim q)) "miss" "domain"⟩ := by
      simp only [handleMissDomain, hnoterr, Bool.false_eq_true, if_false]
      split <;> rfl
    simp only [routeGET, if_neg hs, hip, hdom, hmiss, Bool.false_eq_true,
      if_false, if_true, hmd]

/-- Witness for C8: with the cache write failing (non-P2002), the caller
still receives the live payload with `status = miss` and HTTP 200. -/
theorem C8_witness :
    (routeGET envWriteFaultW storeEmptyW (some "example.org")).1 =
      ⟨200, .cacheResult liveDocW "miss" "domain"⟩ :=
  (C8_cache_write_never_affects_response envWriteFaultW storeEmptyW
      "example.org" (by decide)).2 rfl (by decide) rfl (by decide)
